import Mathlib

/-!
Verification of `TransmissionRPCClient` (src/TransmissionRPCClient.js).

The client is a thin facade over one transport method `http(method, keys)`
which posts `{method, arguments: keys}` to a fixed URL with a cached
`x-transmission-session-id` header, retries on HTTP 409 after storing the
fresh session token from the response headers, and otherwise surfaces
failures.

The embedding below models:
  * JavaScript values (`JsVal`) as far as the client manipulates them
    (truthiness, `&&`, property access, `Object.assign` on one argument);
  * the HTTP collaborator (axios) as a transcript of per-attempt replies
    (`ServerReply`): a resolved decoded body, or a thrown error carrying an
    optional `response` with status and session header;
  * promise settlement (`Settle`): a promise resolves, rejects, or — when the
    `async` executor of `new Promise` throws, which the `Promise` constructor
    does not observe — never settles, leaving an unhandled rejection;
  * each operation as a function from the client state and a transcript to an
    `Outcome`: the settlement, the final client state, and the list of wire
    requests that were sent.  An operation returns `none` when the transcript
    is exhausted while the retry loop is still running (the unbounded loop
    consumed every reply without terminating).
-/

namespace TransmissionRPC

/-- JavaScript values, as far as the client inspects or builds them.
`boxed` is the wrapper object produced by ToObject on a primitive
(e.g. `Object.assign(0)` yields a `Number` wrapper object). -/
inductive JsVal where
  | undefined
  | null
  | bool (b : Bool)
  | num (n : Int)
  | str (s : String)
  | arr (elems : List JsVal)
  | obj (fields : List (String × JsVal))
  | boxed (prim : JsVal)

/-- JavaScript truthiness (NaN is not modelled; numbers are integers here). -/
def jsTruthy : JsVal → Bool
  | .undefined => false
  | .null => false
  | .bool b => b
  | .num n => n != 0
  | .str s => s != ""
  | .arr _ => true
  | .obj _ => true
  | .boxed _ => true

/-- JavaScript `a && b`: returns `a` when `a` is falsy, else `b`. -/
def jsAnd (a b : JsVal) : JsVal :=
  if jsTruthy a then b else a

/-- Property access `v[key]`: field of an object, `undefined` otherwise.
(The client only reads `.result` and `.arguments` off decoded response
bodies, which are objects in every behaviour the claims exercise.) -/
def jsGet : JsVal → String → JsVal
  | .obj fs, key => (fs.lookup key).getD .undefined
  | _, _ => .undefined

/-- Strict equality `v === s` against a string literal: true exactly when `v`
is a primitive string with the same characters. -/
def jsStrEq (v : JsVal) (s : String) : Bool :=
  match v with
  | .str t => t == s
  | _ => false

/-- Message of the TypeError thrown by `Object.assign(undefined)` /
`Object.assign(null)`. -/
def objectAssignErrMsg : String := "Cannot convert undefined or null to object"

/-- `Object.assign(x)` with a single argument: throws a TypeError on
`undefined`/`null`, returns the object itself on objects and arrays, and
returns a wrapper object on the remaining primitives. -/
def objectAssign1 : JsVal → Except String JsVal
  | .undefined => .error objectAssignErrMsg
  | .null => .error objectAssignErrMsg
  | .obj fs => .ok (.obj fs)
  | .arr xs => .ok (.arr xs)
  | v => .ok (.boxed v)

/-- An error thrown by the HTTP collaborator (`axios.request`): either an
HTTP-status rejection carrying `e.response` (with its status and its
`x-transmission-session-id` response header, absent when the server did not
send one), or a failure with no response (network error and the like). -/
inductive AxiosError where
  | response (status : Nat) (sessionHeader : Option String)
  | noResponse (msg : String)

/-- `e?.response?.status`: the status when a response is present. -/
def errStatus : AxiosError → Option Nat
  | .response s _ => some s
  | .noResponse _ => none

/-- `e.response.headers["x-transmission-session-id"]` (only read on 409s,
where a response is present). -/
def errSessionHeader : AxiosError → Option String
  | .response _ h => h
  | .noResponse _ => none

/-- One reply of the HTTP collaborator to one attempt: the awaited request
either resolves with a decoded body or throws an `AxiosError`. -/
inductive ServerReply where
  | ok (data : JsVal)
  | err (e : AxiosError)

/-- Values that reach a promise's rejection path or escape an executor. -/
inductive JsError where
  | axios (e : AxiosError)
  | typeError (msg : String)
  | referenceError (name : String)
  | thrownString (s : String)

/-- Settlement of the promise an operation returns.  `neverSettles` models an
`async` executor that threw: the `Promise` constructor ignores the rejected
promise the executor returns, so the outer promise never resolves nor
rejects; the payload records the value left as an unhandled rejection
(when the hang originates in this executor rather than an awaited one). -/
inductive Settle where
  | resolved (v : JsVal)
  | rejected (e : JsError)
  | neverSettles (unhandled : Option JsError)

/-- Instance state of `TransmissionRPCClient`: the constructor stores the
normalized URL, `sessionId = null`, and the precomputed Basic-auth value.
URL normalization (`new URL(url).toString()`) and base64 encoding of
`user:password` are standard-library concerns treated as opaque strings. -/
structure Client where
  url : String
  sessionId : Option String
  auth : String

/-- The constructor: fresh instances hold no session token. -/
def mkClient (url auth : String) : Client :=
  ⟨url, none, auth⟩

/-- One wire request as built inside `http`: POST to `this.url`, constant
`Accept`/`Content-Type: application/json` headers (elided), the
`x-transmission-session-id` header carrying `this.sessionId` (absent when
null), `Authorization: Basic <auth>`, and body `{method, arguments: keys}`. -/
structure SentRequest where
  url : String
  auth : String
  sessionId : Option String
  method : String
  keys : JsVal

/-- The request `http` builds on each loop iteration from the current state. -/
def mkRequest (c : Client) (m : String) (k : JsVal) : SentRequest :=
  ⟨c.url, c.auth, c.sessionId, m, k⟩

/-- Result of running one operation against a transcript: how its promise
settled, the client state afterwards, and every request sent on the wire. -/
structure Outcome where
  settle : Settle
  client : Client
  sent : List SentRequest

/-- String thrown by `http` on a 401 status. -/
def unauthorizedMsg : String := "Unauthorized to access RPC Server"

/-- The transport `http(method, keys)`, run against a transcript of replies
(one per attempt).  Mirrors the `while (true)` loop: a resolved await
resolves the promise with the decoded body; a thrown error with status 409
stores the response's session header into `this.sessionId` and loops; a
status 401 `throw`s a string inside the `async` executor (so the returned
promise never settles); any other error is passed to `reject`.  `none`
means the transcript ran out while the loop was still going. -/
def http (c : Client) (m : String) (k : JsVal) : List ServerReply → Option Outcome
  | [] => none
  | .ok d :: _ => some ⟨.resolved d, c, [mkRequest c m k]⟩
  | .err e :: rest =>
    if errStatus e = some 409 then
      (http { c with sessionId := errSessionHeader e } m k rest).map
        (fun o => ⟨o.settle, o.client, mkRequest c m k :: o.sent⟩)
    else if errStatus e = some 401 then
      some ⟨.neverSettles (some (.thrownString unauthorizedMsg)), c, [mkRequest c m k]⟩
    else
      some ⟨.rejected (.axios e), c, [mkRequest c m k]⟩

/-- Session headers of the leading run of 409 replies in a transcript: the
tokens `http` stores, in order, before its loop leaves the 409 branch. -/
def leadingTokens : List ServerReply → List (Option String)
  | .err e :: rest =>
    if errStatus e = some 409 then errSessionHeader e :: leadingTokens rest else []
  | _ => []

/-- Last element of a list, or a default when the list is empty. -/
def lastOr (dflt : Option String) : List (Option String) → Option String
  | [] => dflt
  | t :: rest => lastOr t rest

/-- `resp.result === "success" ? resp.arguments : null`. -/
def interpNull (d : JsVal) : JsVal :=
  if jsStrEq (jsGet d "result") "success" then jsGet d "arguments" else .null

/-- `resp.result === "success" ? resp.arguments : resp.result`. -/
def interpResult (d : JsVal) : JsVal :=
  if jsStrEq (jsGet d "result") "success" then jsGet d "arguments" else jsGet d "result"

/-- Facade shape `new Promise(async (resolve, reject) => ...)` resolving
`null` on non-success; a rejection of `http` is re-rejected unchanged. -/
def rpcNullOp (remote : String) (keys : JsVal) (c : Client) (tr : List ServerReply) :
    Option Outcome :=
  (http c remote keys tr).map fun o =>
    match o.settle with
    | .resolved d => ⟨.resolved (interpNull d), o.client, o.sent⟩
    | s => ⟨s, o.client, o.sent⟩

/-- Facade shape resolving the raw `resp.result` on non-success; a rejection
of `http` is re-rejected unchanged. -/
def rpcResultOp (remote : String) (keys : JsVal) (c : Client) (tr : List ServerReply) :
    Option Outcome :=
  (http c remote keys tr).map fun o =>
    match o.settle with
    | .resolved d => ⟨.resolved (interpResult d), o.client, o.sent⟩
    | s => ⟨s, o.client, o.sent⟩

/-- Facade shape of the `queueMove*` methods: the executor is
`async (resolve) => ...` — only `resolve` is bound — yet the catch block
calls `reject(e)`.  In the strict-mode class body that raises a
ReferenceError inside the `async` executor, so on any `http` rejection the
returned promise never settles. -/
def rpcResultOpRejectUnbound (remote : String) (keys : JsVal) (c : Client)
    (tr : List ServerReply) : Option Outcome :=
  (http c remote keys tr).map fun o =>
    match o.settle with
    | .resolved d => ⟨.resolved (interpResult d), o.client, o.sent⟩
    | .rejected _ => ⟨.neverSettles (some (.referenceError "reject")), o.client, o.sent⟩
    | .neverSettles u => ⟨.neverSettles u, o.client, o.sent⟩

/-- Shared body of the five torrent-action methods: build
`Object.assign(ids && { ids })` (a TypeError here is caught and rejected
before any request is sent), call `http`, resolve `null` on non-success. -/
def torrentAction (remote : String) (ids : JsVal) (c : Client) (tr : List ServerReply) :
    Option Outcome :=
  match objectAssign1 (jsAnd ids (.obj [("ids", ids)])) with
  | .error msg => some ⟨.rejected (.typeError msg), c, []⟩
  | .ok payload => rpcNullOp remote payload c tr

/-- `startTorrents(ids)` — remote method `torrent-start`. -/
def startTorrents (ids : JsVal) (c : Client) (tr : List ServerReply) : Option Outcome :=
  torrentAction "torrent-start" ids c tr

/-- `startNowTorrents(ids)` — remote method `torrent-start-now`. -/
def startNowTorrents (ids : JsVal) (c : Client) (tr : List ServerReply) : Option Outcome :=
  torrentAction "torrent-start-now" ids c tr

/-- `stopTorrents(ids)` — remote method `torrent-stop`. -/
def stopTorrents (ids : JsVal) (c : Client) (tr : List ServerReply) : Option Outcome :=
  torrentAction "torrent-stop" ids c tr

/-- `verifyTorrents(ids)` — remote method `torrent-verify`. -/
def verifyTorrents (ids : JsVal) (c : Client) (tr : List ServerReply) : Option Outcome :=
  torrentAction "torrent-verify" ids c tr

/-- `reannounceTorrents(ids)` — remote method `torrent-reannounce`. -/
def reannounceTorrents (ids : JsVal) (c : Client) (tr : List ServerReply) : Option Outcome :=
  torrentAction "torrent-reannounce" ids c tr

/-- Default `fields` argument of `getTorrents`. -/
def torrentGetDefaultFields : JsVal :=
  .arr [.str "id", .str "name", .str "status", .str "downloadedEver", .str "uploadedEver"]

/-- `getTorrents(ids = 0, fields = [...])`: sends `torrent-get` with
arguments `{ fields, ids }`; resolves `null` on non-success. -/
def getTorrents (c : Client) (tr : List ServerReply) (ids : JsVal := .num 0)
    (fields : JsVal := torrentGetDefaultFields) : Option Outcome :=
  rpcNullOp "torrent-get" (.obj [("fields", fields), ("ids", ids)]) c tr

/-- `removeTorrent(keys)` — remote method `torrent-remove`; resolves the raw
`resp.result` on non-success. -/
def removeTorrent (keys : JsVal) (c : Client) (tr : List ServerReply) : Option Outcome :=
  rpcResultOp "torrent-remove" keys c tr

/-- `blocklistUpdate()` — remote method `blocklist-update`, no arguments. -/
def blocklistUpdate (c : Client) (tr : List ServerReply) : Option Outcome :=
  rpcResultOp "blocklist-update" .undefined c tr

/-- `portTest()` — the source also sends remote method `blocklist-update`
(line 267), not `port-test`. -/
def portTest (c : Client) (tr : List ServerReply) : Option Outcome :=
  rpcResultOp "blocklist-update" .undefined c tr

/-- `queueMoveTop(ids)` — passes `ids` directly as the arguments object;
executor binds only `resolve`. -/
def queueMoveTop (ids : JsVal) (c : Client) (tr : List ServerReply) : Option Outcome :=
  rpcResultOpRejectUnbound "queue-move-top" ids c tr

/-- `queueMoveUp(ids)` — executor binds only `resolve`. -/
def queueMoveUp (ids : JsVal) (c : Client) (tr : List ServerReply) : Option Outcome :=
  rpcResultOpRejectUnbound "queue-move-up" ids c tr

/-- `queueMoveDown(ids)` — executor binds only `resolve`. -/
def queueMoveDown (ids : JsVal) (c : Client) (tr : List ServerReply) : Option Outcome :=
  rpcResultOpRejectUnbound "queue-move-down" ids c tr

/-- `queueMoveBottom(ids)` — executor binds only `resolve`. -/
def queueMoveBottom (ids : JsVal) (c : Client) (tr : List ServerReply) : Option Outcome :=
  rpcResultOpRejectUnbound "queue-move-bottom" ids c tr

/-- `disconnect()`: awaits `http("session-close")`; on success sets
`this.sessionId = null` and resolves with no value.  Its executor also binds
only `resolve` yet calls `reject(e)` in the catch, so on an `http` rejection
the promise never settles (ReferenceError in the executor). -/
def disconnect (c : Client) (tr : List ServerReply) : Option Outcome :=
  (http c "session-close" .undefined tr).map fun o =>
    match o.settle with
    | .resolved _ => ⟨.resolved .undefined, { o.client with sessionId := none }, o.sent⟩
    | .rejected _ => ⟨.neverSettles (some (.referenceError "reject")), o.client, o.sent⟩
    | .neverSettles u => ⟨.neverSettles u, o.client, o.sent⟩

/-! Helper lemmas about the transport. -/

/-- Every successful run of `http` ends in the state reached by storing each
leading 409 token in turn, and its first wire request is built from the
state the call started in. -/
theorem http_run {c : Client} {m : String} {k : JsVal} {tr : List ServerReply}
    {o : Outcome} (h : http c m k tr = some o) :
    o.client = ⟨c.url, lastOr c.sessionId (leadingTokens tr), c.auth⟩ ∧
    o.sent.head? = some (mkRequest c m k) := by
  induction tr generalizing c o with
  | nil => simp [http] at h
  | cons r rest ih =>
    cases r with
    | ok d =>
      simp only [http, Option.some.injEq] at h
      subst h
      exact ⟨rfl, rfl⟩
    | err e =>
      by_cases h409 : errStatus e = some 409
      · simp only [http, h409, if_pos] at h
        cases hh : http { c with sessionId := errSessionHeader e } m k rest with
        | none => rw [hh] at h; simp at h
        | some o1 =>
          rw [hh] at h
          simp only [Option.map_some', Option.some.injEq] at h
          subst h
          obtain ⟨hc, _⟩ := ih hh
          refine ⟨?_, rfl⟩
          simpa [leadingTokens, h409, lastOr] using hc
      · have hlt : lastOr c.sessionId (leadingTokens (ServerReply.err e :: rest)) =
            c.sessionId := by
          simp [leadingTokens, h409, lastOr]
        rw [hlt]
        by_cases hb : errStatus e = some 401 <;> simp [http, h409, hb] at h <;>
          subst h <;> exact ⟨rfl, rfl⟩

/-- Every wire request a run of `http` sends carries the method and the
arguments the call was made with. -/
theorem http_sent_all {c : Client} {m : String} {k : JsVal} {tr : List ServerReply}
    {o : Outcome} (h : http c m k tr = some o) :
    ∀ r ∈ o.sent, r.method = m ∧ r.keys = k := by
  induction tr generalizing c o with
  | nil => simp [http] at h
  | cons reply rest ih =>
    cases reply with
    | ok d =>
      simp only [http, Option.some.injEq] at h
      subst h
      simp [mkRequest]
    | err e =>
      by_cases h409 : errStatus e = some 409
      · simp only [http, h409, if_pos] at h
        cases hh : http { c with sessionId := errSessionHeader e } m k rest with
        | none => rw [hh] at h; simp at h
        | some o1 =>
          rw [hh] at h
          simp only [Option.map_some', Option.some.injEq] at h
          subst h
          intro r hr
          rcases List.mem_cons.mp hr with hr | hr
          · subst hr; exact ⟨rfl, rfl⟩
          · exact ih hh r hr
      · by_cases hb : errStatus e = some 401 <;> simp [http, h409, hb] at h <;>
          subst h <;> simp [mkRequest]

/-- Unfolding lemma: a defined `rpcNullOp` run wraps an `http` run with the
same wire traffic and final state. -/
theorem rpcNullOp_run {remote : String} {keys : JsVal} {c : Client}
    {tr : List ServerReply} {o : Outcome} (h : rpcNullOp remote keys c tr = some o) :
    ∃ o1, http c remote keys tr = some o1 ∧ o.sent = o1.sent ∧ o.client = o1.client := by
  unfold rpcNullOp at h
  cases hh : http c remote keys tr with
  | none => rw [hh] at h; simp at h
  | some o1 =>
    rw [hh] at h
    simp only [Option.map_some', Option.some.injEq] at h
    refine ⟨o1, rfl, ?_, ?_⟩ <;> cases hset : o1.settle <;> rw [hset] at h <;>
      rw [← h]

/-- Unfolding lemma: a defined `rpcResultOp` run wraps an `http` run with the
same wire traffic and final state. -/
theorem rpcResultOp_run {remote : String} {keys : JsVal} {c : Client}
    {tr : List ServerReply} {o : Outcome} (h : rpcResultOp remote keys c tr = some o) :
    ∃ o1, http c remote keys tr = some o1 ∧ o.sent = o1.sent ∧ o.client = o1.client := by
  unfold rpcResultOp at h
  cases hh : http c remote keys tr with
  | none => rw [hh] at h; simp at h
  | some o1 =>
    rw [hh] at h
    simp only [Option.map_some', Option.some.injEq] at h
    refine ⟨o1, rfl, ?_, ?_⟩ <;> cases hset : o1.settle <;> rw [hset] at h <;>
      rw [← h]

/-- One-step unfolding of the retry loop on a 409 reply: store the header
value into `sessionId` and loop, keeping the request just sent. -/
theorem http_cons_409 (c : Client) (m : String) (k : JsVal) (hdr : Option String)
    (rest : List ServerReply) :
    http c m k (.err (.response 409 hdr) :: rest) =
      (http { c with sessionId := hdr } m k rest).map
        (fun o => ⟨o.settle, o.client, mkRequest c m k :: o.sent⟩) := by
  rfl

/-! Claim theorems. -/

/-- C1: for any number of consecutive 409 rejections each carrying a fresh
session token, followed by a success, `http(method, keys)` stores each 409's
`x-transmission-session-id` header as the current token and retries the same
method and arguments (one request per challenge plus the initial one, each
retry carrying the token just stored, with no bound on the number of
challenges), and on the success it resolves with the decoded response body,
terminating the loop (later transcript entries are never consumed). -/
theorem http_409_retries_then_success (c : Client) (m : String) (k : JsVal)
    (toks : List String) (d : JsVal) (rest : List ServerReply) :
    http c m k
        (toks.map (fun t => ServerReply.err (.response 409 (some t))) ++
          ServerReply.ok d :: rest) =
      some ⟨.resolved d,
            ⟨c.url, lastOr c.sessionId (toks.map some), c.auth⟩,
            (c.sessionId :: toks.map some).map (fun s => ⟨c.url, c.auth, s, m, k⟩)⟩ := by
  induction toks generalizing c with
  | nil => rfl
  | cons t ts ih =>
    rw [List.map_cons, List.cons_append, http_cons_409, ih]
    rfl

/-- C2 (evaluation at the failing input): on a 401 rejection `http` sends no
further request (exactly the one attempt is on the wire), but instead of
rejecting with the Unauthorized error it throws the string inside the
`async` Promise executor, so the promise returned to the caller never
settles and the string is left as an unhandled rejection. -/
theorem http_401_no_retry_never_settles (c : Client) (m : String) (k : JsVal)
    (hdr : Option String) (rest : List ServerReply) :
    http c m k (.err (.response 401 hdr) :: rest) =
      some ⟨.neverSettles (some (.thrownString unauthorizedMsg)), c,
            [mkRequest c m k]⟩ := by
  rfl

/-- C4: on a rejection whose status is neither 409 nor 401 — including
failures with no HTTP response at all — `http` rejects immediately with the
underlying error value unmodified, and exactly one request was sent. -/
theorem http_other_failure_rejects_unmodified (c : Client) (m : String) (k : JsVal)
    (e : AxiosError) (rest : List ServerReply)
    (h409 : errStatus e ≠ some 409) (h401 : errStatus e ≠ some 401) :
    http c m k (.err e :: rest) =
      some ⟨.rejected (.axios e), c, [mkRequest c m k]⟩ := by
  simp [http, h409, h401]

/-- Witness for C4 at a concrete network error. -/
theorem http_other_failure_rejects_unmodified_w :
    errStatus (.noResponse "socket hang up") ≠ some 409 ∧
    errStatus (.noResponse "socket hang up") ≠ some 401 ∧
    http (mkClient "http+uri" "dXNlcjpwdw==") "torrent-get" (.obj [])
        [.err (.noResponse "socket hang up")] =
      some ⟨.rejected (.axios (.noResponse "socket hang up")),
            mkClient "http+uri" "dXNlcjpwdw==",
            [mkRequest (mkClient "http+uri" "dXNlcjpwdw==") "torrent-get" (.obj [])]⟩ :=
  ⟨by decide, by decide,
    http_other_failure_rejects_unmodified _ _ _ _ _ (by decide) (by decide)⟩

/-- C3: across two consecutive `http` invocations on the same instance —
whatever remote operations they serve — the instance state after the first
call holds exactly the token of the last 409 challenge seen there (or the
token held before, when no challenge occurred), and the first request of the
second call carries exactly that held token.  The instance holds one
`sessionId` at a time, and each request is built from the value held when it
is sent. -/
theorem http_session_token_threading (c : Client) (m1 : String) (k1 : JsVal)
    (tr1 : List ServerReply) (o1 : Outcome) (m2 : String) (k2 : JsVal)
    (tr2 : List ServerReply) (o2 : Outcome)
    (h1 : http c m1 k1 tr1 = some o1)
    (h2 : http o1.client m2 k2 tr2 = some o2) :
    o1.client.sessionId = lastOr c.sessionId (leadingTokens tr1) ∧
    o2.sent.head? =
      some ⟨c.url, c.auth, lastOr c.sessionId (leadingTokens tr1), m2, k2⟩ := by
  obtain ⟨hc1, _⟩ := http_run h1
  have hsid : o1.client.sessionId = lastOr c.sessionId (leadingTokens tr1) := by
    rw [hc1]
  refine ⟨hsid, ?_⟩
  have hurl : o1.client.url = c.url := by rw [hc1]
  have hauth : o1.client.auth = c.auth := by rw [hc1]
  rw [(http_run h2).2]
  simp [mkRequest, hsid, hurl, hauth]

/-- Witness for C3: a 409 with token "abc" during a `torrent-get` exchange,
then a `session-stats` call whose first request carries "abc". -/
theorem http_session_token_threading_w :
    http (mkClient "u" "a") "torrent-get" (.obj [])
        [.err (.response 409 (some "abc")), .ok (.obj [("result", .str "success")])] =
      some ⟨.resolved (.obj [("result", .str "success")]), ⟨"u", some "abc", "a"⟩,
            [⟨"u", "a", none, "torrent-get", .obj []⟩,
             ⟨"u", "a", some "abc", "torrent-get", .obj []⟩]⟩ ∧
    http (⟨"u", some "abc", "a"⟩ : Client) "session-stats" .undefined
        [.ok (.obj [("result", .str "success")])] =
      some ⟨.resolved (.obj [("result", .str "success")]), ⟨"u", some "abc", "a"⟩,
            [⟨"u", "a", some "abc", "session-stats", .undefined⟩]⟩ ∧
    (some "abc" : Option String) =
      lastOr (mkClient "u" "a").sessionId
        (leadingTokens
          [.err (.response 409 (some "abc")), .ok (.obj [("result", .str "success")])]) ∧
    ([⟨"u", "a", some "abc", "session-stats", .undefined⟩] :
        List SentRequest).head? =
      some ⟨(mkClient "u" "a").url, (mkClient "u" "a").auth,
            lastOr (mkClient "u" "a").sessionId
              (leadingTokens
                [.err (.response 409 (some "abc")),
                 .ok (.obj [("result", .str "success")])]),
            "session-stats", .undefined⟩ := by
  have h := http_session_token_threading (mkClient "u" "a") "torrent-get" (.obj [])
      [.err (.response 409 (some "abc")), .ok (.obj [("result", .str "success")])]
      ⟨.resolved (.obj [("result", .str "success")]), ⟨"u", some "abc", "a"⟩,
        [⟨"u", "a", none, "torrent-get", .obj []⟩,
         ⟨"u", "a", some "abc", "torrent-get", .obj []⟩]⟩
      "session-stats" .undefined
      [.ok (.obj [("result", .str "success")])]
      ⟨.resolved (.obj [("result", .str "success")]), ⟨"u", some "abc", "a"⟩,
        [⟨"u", "a", some "abc", "session-stats", .undefined⟩]⟩
      rfl rfl
  exact ⟨rfl, rfl, h.1, h.2⟩

/-- C5 (evaluation at the failing input): when the transport call rejects
with a non-recoverable error (here a network failure with no response),
`disconnect` and the four `queueMove` operations do not reject with that
error: their catch blocks call the unbound name `reject`, raising a
ReferenceError inside the `async` executor, so the returned promise never
settles and the underlying error is swallowed. -/
theorem disconnect_queueMove_reject_unbound (c : Client) (msg : String) (ids : JsVal) :
    ((disconnect c [.err (.noResponse msg)]).map Outcome.settle =
        some (.neverSettles (some (.referenceError "reject")))) ∧
    ((queueMoveTop ids c [.err (.noResponse msg)]).map Outcome.settle =
        some (.neverSettles (some (.referenceError "reject")))) ∧
    ((queueMoveUp ids c [.err (.noResponse msg)]).map Outcome.settle =
        some (.neverSettles (some (.referenceError "reject")))) ∧
    ((queueMoveDown ids c [.err (.noResponse msg)]).map Outcome.settle =
        some (.neverSettles (some (.referenceError "reject")))) ∧
    ((queueMoveBottom ids c [.err (.noResponse msg)]).map Outcome.settle =
        some (.neverSettles (some (.referenceError "reject")))) :=
  ⟨rfl, rfl, rfl, rfl, rfl⟩

/-- C6: whenever `disconnect` resolves, the cached session token has been
reset to absent, and the first request of any subsequent `http` call on the
instance carries no session token. -/
theorem disconnect_resets_session (c : Client) (tr : List ServerReply) (o : Outcome)
    (h : disconnect c tr = some o) (v : JsVal) (hs : o.settle = .resolved v) :
    o.client.sessionId = none ∧
    ∀ m k tr2 o2, http o.client m k tr2 = some o2 →
      o2.sent.head? = some ⟨o.client.url, o.client.auth, none, m, k⟩ := by
  unfold disconnect at h
  cases hh : http c "session-close" .undefined tr with
  | none => rw [hh] at h; simp at h
  | some o1 =>
    rw [hh] at h
    simp only [Option.map_some', Option.some.injEq] at h
    cases hset : o1.settle <;> rw [hset] at h <;> subst h
    case resolved d =>
      refine ⟨rfl, ?_⟩
      intro m k tr2 o2 h2
      rw [(http_run h2).2]
      rfl
    case rejected e => exact Settle.noConfusion hs
    case neverSettles u => exact Settle.noConfusion hs

/-- Witness for C6: disconnecting with a cached token resolves, clears the
token, and the next call sends no session header. -/
theorem disconnect_resets_session_w :
    disconnect (⟨"u", some "tok", "a"⟩ : Client) [.ok (.obj [("result", .str "success")])] =
      some ⟨.resolved .undefined, ⟨"u", none, "a"⟩,
            [⟨"u", "a", some "tok", "session-close", .undefined⟩]⟩ ∧
    (⟨"u", none, "a"⟩ : Client).sessionId = none ∧
    http (⟨"u", none, "a"⟩ : Client) "torrent-get" (.obj []) [.ok (.obj [])] =
      some ⟨.resolved (.obj []), ⟨"u", none, "a"⟩,
            [⟨"u", "a", none, "torrent-get", .obj []⟩]⟩ ∧
    ([(⟨"u", "a", none, "torrent-get", .obj []⟩ : SentRequest)]).head? =
      some ⟨"u", "a", none, "torrent-get", .obj []⟩ := by
  have h := disconnect_resets_session ⟨"u", some "tok", "a"⟩
      [.ok (.obj [("result", .str "success")])]
      ⟨.resolved .undefined, ⟨"u", none, "a"⟩,
        [⟨"u", "a", some "tok", "session-close", .undefined⟩]⟩
      rfl .undefined rfl
  exact ⟨rfl, h.1, rfl, h.2 "torrent-get" (.obj []) [.ok (.obj [])] _ rfl⟩

/-- C7: every request sent by `getTorrents` invoked with no arguments is a
`torrent-get` whose arguments are exactly
`{fields: ["id","name","status","downloadedEver","uploadedEver"], ids: 0}`. -/
theorem getTorrents_default_request (c : Client) (tr : List ServerReply) (o : Outcome)
    (h : getTorrents c tr = some o) :
    o.sent.head? = some ⟨c.url, c.auth, c.sessionId, "torrent-get",
      .obj [("fields", .arr [.str "id", .str "name", .str "status",
                             .str "downloadedEver", .str "uploadedEver"]),
            ("ids", .num 0)]⟩ := by
  unfold getTorrents at h
  obtain ⟨o1, hh, hsent, _⟩ := rpcNullOp_run h
  rw [hsent, (http_run hh).2]
  rfl

/-- Witness for C7 at a concrete transcript. -/
theorem getTorrents_default_request_w :
    getTorrents (mkClient "u" "a") [.ok (.obj [("result", .str "x")])] =
      some ⟨.resolved .null, mkClient "u" "a",
            [⟨"u", "a", none, "torrent-get",
              .obj [("fields", .arr [.str "id", .str "name", .str "status",
                                     .str "downloadedEver", .str "uploadedEver"]),
                    ("ids", .num 0)]⟩]⟩ ∧
    ([(⟨"u", "a", none, "torrent-get",
        .obj [("fields", .arr [.str "id", .str "name", .str "status",
                               .str "downloadedEver", .str "uploadedEver"]),
              ("ids", .num 0)]⟩ : SentRequest)]).head? =
      some ⟨"u", "a", none, "torrent-get",
        .obj [("fields", .arr [.str "id", .str "name", .str "status",
                               .str "downloadedEver", .str "uploadedEver"]),
              ("ids", .num 0)]⟩ := by
  have h := getTorrents_default_request (mkClient "u" "a")
      [.ok (.obj [("result", .str "x")])]
      ⟨.resolved .null, mkClient "u" "a",
        [⟨"u", "a", none, "torrent-get",
          .obj [("fields", .arr [.str "id", .str "name", .str "status",
                                 .str "downloadedEver", .str "uploadedEver"]),
                ("ids", .num 0)]⟩]⟩ rfl
  exact ⟨rfl, h⟩

/-- Shared computation for C8: each torrent-action method resolves `null`
when the decoded result differs from "success". -/
theorem torrentAction_failure_resolves_null (remote : String) (r : String)
    (hr : r ≠ "success") (ids : JsVal) (hids : jsTruthy ids = true) (c : Client) :
    (torrentAction remote ids c [.ok (.obj [("result", .str r)])]).map Outcome.settle =
      some (.resolved .null) := by
  have hb : (r == "success") = false := beq_eq_false_iff_ne.mpr hr
  simp [torrentAction, jsAnd, hids, objectAssign1, rpcNullOp, http, interpNull,
    jsGet, jsStrEq, hb, List.lookup]

/-- C8: on a response whose `result` field is any string other than
"success", the five torrent-action operations resolve to `null`, while
`removeTorrent` resolves to the raw result string itself — failure as data,
not a rejection. -/
theorem result_failure_asymmetry (r : String) (hr : r ≠ "success") (ids keys : JsVal)
    (hids : jsTruthy ids = true) (c : Client) :
    ((startTorrents ids c [.ok (.obj [("result", .str r)])]).map Outcome.settle =
        some (.resolved .null)) ∧
    ((startNowTorrents ids c [.ok (.obj [("result", .str r)])]).map Outcome.settle =
        some (.resolved .null)) ∧
    ((stopTorrents ids c [.ok (.obj [("result", .str r)])]).map Outcome.settle =
        some (.resolved .null)) ∧
    ((verifyTorrents ids c [.ok (.obj [("result", .str r)])]).map Outcome.settle =
        some (.resolved .null)) ∧
    ((reannounceTorrents ids c [.ok (.obj [("result", .str r)])]).map Outcome.settle =
        some (.resolved .null)) ∧
    ((removeTorrent keys c [.ok (.obj [("result", .str r)])]).map Outcome.settle =
        some (.resolved (.str r))) := by
  refine ⟨torrentAction_failure_resolves_null "torrent-start" r hr ids hids c,
    torrentAction_failure_resolves_null "torrent-start-now" r hr ids hids c,
    torrentAction_failure_resolves_null "torrent-stop" r hr ids hids c,
    torrentAction_failure_resolves_null "torrent-verify" r hr ids hids c,
    torrentAction_failure_resolves_null "torrent-reannounce" r hr ids hids c, ?_⟩
  have hb : (r == "success") = false := beq_eq_false_iff_ne.mpr hr
  simp [removeTorrent, rpcResultOp, http, interpResult, jsGet, jsStrEq, hb, List.lookup]

/-- Witness for C8: a `torrent-remove` answered `{"result":"no such torrent"}`
resolves to the string itself; the action methods resolve `null`. -/
theorem result_failure_asymmetry_w :
    ((startTorrents (.num 1) (mkClient "u" "a")
        [.ok (.obj [("result", .str "no such torrent")])]).map Outcome.settle =
      some (.resolved .null)) ∧
    ((startNowTorrents (.num 1) (mkClient "u" "a")
        [.ok (.obj [("result", .str "no such torrent")])]).map Outcome.settle =
      some (.resolved .null)) ∧
    ((stopTorrents (.num 1) (mkClient "u" "a")
        [.ok (.obj [("result", .str "no such torrent")])]).map Outcome.settle =
      some (.resolved .null)) ∧
    ((verifyTorrents (.num 1) (mkClient "u" "a")
        [.ok (.obj [("result", .str "no such torrent")])]).map Outcome.settle =
      some (.resolved .null)) ∧
    ((reannounceTorrents (.num 1) (mkClient "u" "a")
        [.ok (.obj [("result", .str "no such torrent")])]).map Outcome.settle =
      some (.resolved .null)) ∧
    ((removeTorrent (.obj [("ids", .arr [.num 1])]) (mkClient "u" "a")
        [.ok (.obj [("result", .str "no such torrent")])]).map Outcome.settle =
      some (.resolved (.str "no such torrent"))) :=
  result_failure_asymmetry "no such torrent" (by decide) (.num 1)
    (.obj [("ids", .arr [.num 1])]) (by decide) (mkClient "u" "a")

/-- C9: `portTest` puts the remote method name "blocklist-update" — never
"port-test" — on the wire, and its behaviour coincides with
`blocklistUpdate` on every transcript. -/
theorem portTest_sends_blocklist_update (c : Client) (tr : List ServerReply)
    (o : Outcome) (h : portTest c tr = some o) :
    (∀ r ∈ o.sent, r.method = "blocklist-update" ∧ r.method ≠ "port-test") ∧
    portTest c tr = blocklistUpdate c tr := by
  refine ⟨?_, rfl⟩
  unfold portTest at h
  obtain ⟨o1, hh, hsent, _⟩ := rpcResultOp_run h
  intro r hr
  rw [hsent] at hr
  have hm := (http_sent_all hh r hr).1
  exact ⟨hm, by rw [hm]; decide⟩

/-- Witness for C9 at a concrete successful exchange. -/
theorem portTest_sends_blocklist_update_w :
    portTest (mkClient "u" "a")
        [.ok (.obj [("result", .str "success"), ("arguments", .obj [])])] =
      some ⟨.resolved (.obj []), mkClient "u" "a",
            [⟨"u", "a", none, "blocklist-update", .undefined⟩]⟩ ∧
    ((⟨"u", "a", none, "blocklist-update", .undefined⟩ : SentRequest).method =
        "blocklist-update" ∧
      (⟨"u", "a", none, "blocklist-update", .undefined⟩ : SentRequest).method ≠
        "port-test") ∧
    portTest (mkClient "u" "a")
        [.ok (.obj [("result", .str "success"), ("arguments", .obj [])])] =
      blocklistUpdate (mkClient "u" "a")
        [.ok (.obj [("result", .str "success"), ("arguments", .obj [])])] := by
  have h := portTest_sends_blocklist_update (mkClient "u" "a")
      [.ok (.obj [("result", .str "success"), ("arguments", .obj [])])]
      ⟨.resolved (.obj []), mkClient "u" "a",
        [⟨"u", "a", none, "blocklist-update", .undefined⟩]⟩ rfl
  exact ⟨rfl, h.1 _ (List.Mem.head _), h.2⟩

/-- Statement pattern of C10 for one torrent-action operation: on this input
the operation either rejects with the `Object.assign` TypeError having sent
nothing, or every payload it sends is not an object literal at all (in
particular it is never a plain `{ids}` mapping, and never an object with
`ids` omitted). -/
def sendsNoPlainIds (op : JsVal → Client → List ServerReply → Option Outcome)
    (ids : JsVal) (c : Client) (tr : List ServerReply) : Prop :=
  ∀ o, op ids c tr = some o →
    (o.settle = .rejected (.typeError objectAssignErrMsg) ∧ o.sent = []) ∨
    (∀ r ∈ o.sent, ∀ l, r.keys ≠ JsVal.obj l)

/-- Core of C10, proved once over the shared body of the five methods. -/
theorem torrentAction_falsy (remote : String) (ids : JsVal)
    (hf : jsTruthy ids = false) (c : Client) (tr : List ServerReply) :
    ∀ o, torrentAction remote ids c tr = some o →
      (o.settle = .rejected (.typeError objectAssignErrMsg) ∧ o.sent = []) ∨
      (∀ r ∈ o.sent, ∀ l, r.keys ≠ JsVal.obj l) := by
  intro o h
  cases ids with
  | undefined =>
    left
    simp [torrentAction, jsAnd, jsTruthy, objectAssign1] at h
    exact ⟨by rw [← h], by rw [← h]⟩
  | null =>
    left
    simp [torrentAction, jsAnd, jsTruthy, objectAssign1] at h
    exact ⟨by rw [← h], by rw [← h]⟩
  | bool b =>
    right
    simp [torrentAction, jsAnd, hf, objectAssign1] at h
    obtain ⟨o1, hh, hsent, _⟩ := rpcNullOp_run h
    intro r hr l heq
    rw [hsent] at hr
    rw [(http_sent_all hh r hr).2] at heq
    exact JsVal.noConfusion heq
  | num n =>
    right
    simp [torrentAction, jsAnd, hf, objectAssign1] at h
    obtain ⟨o1, hh, hsent, _⟩ := rpcNullOp_run h
    intro r hr l heq
    rw [hsent] at hr
    rw [(http_sent_all hh r hr).2] at heq
    exact JsVal.noConfusion heq
  | str s =>
    right
    simp [torrentAction, jsAnd, hf, objectAssign1] at h
    obtain ⟨o1, hh, hsent, _⟩ := rpcNullOp_run h
    intro r hr l heq
    rw [hsent] at hr
    rw [(http_sent_all hh r hr).2] at heq
    exact JsVal.noConfusion heq
  | arr l => exact absurd hf (by simp [jsTruthy])
  | obj l => exact absurd hf (by simp [jsTruthy])
  | boxed p => exact absurd hf (by simp [jsTruthy])

/-- C10: with a falsy `ids` (undefined, null, `false`, `0`, or the empty
string) each of the five torrent-action methods either rejects with the
TypeError from `Object.assign` before any request is sent, or sends a
payload that is no object mapping at all (a boxed primitive), so none of
them ever sends a plain `{ids}` mapping or quietly omits the field. -/
theorem falsy_ids_torrent_actions (ids : JsVal) (hf : jsTruthy ids = false)
    (c : Client) (tr : List ServerReply) :
    sendsNoPlainIds startTorrents ids c tr ∧
    sendsNoPlainIds startNowTorrents ids c tr ∧
    sendsNoPlainIds stopTorrents ids c tr ∧
    sendsNoPlainIds verifyTorrents ids c tr ∧
    sendsNoPlainIds reannounceTorrents ids c tr :=
  ⟨torrentAction_falsy "torrent-start" ids hf c tr,
   torrentAction_falsy "torrent-start-now" ids hf c tr,
   torrentAction_falsy "torrent-stop" ids hf c tr,
   torrentAction_falsy "torrent-verify" ids hf c tr,
   torrentAction_falsy "torrent-reannounce" ids hf c tr⟩

/-- Witness for C10 at `ids = 0`. -/
theorem falsy_ids_torrent_actions_w :
    jsTruthy (.num 0) = false ∧
    sendsNoPlainIds startTorrents (.num 0) (mkClient "u" "a") [.ok (.obj [])] ∧
    sendsNoPlainIds stopTorrents (.num 0) (mkClient "u" "a") [.ok (.obj [])] :=
  ⟨by decide,
   (falsy_ids_torrent_actions (.num 0) (by decide) (mkClient "u" "a") [.ok (.obj [])]).1,
   (falsy_ids_torrent_actions (.num 0) (by decide) (mkClient "u" "a")
      [.ok (.obj [])]).2.2.1⟩

end TransmissionRPC
